import Mathlib

/-!
Verification of the STOCKS-B3 analytical core.

Shallow embedding, over `ℚ`, of the scoring and scanning pipeline found in
`src/UNIFICADO/unificado.py`, `src/UNIFICADO/unificado2.py`,
`src/GLOBAL/globalscanner.py` and `src/config.py`.  Pure numeric code is
translated function-by-function; Python floats are modelled as rationals,
`round(x, 1)` as round-half-to-even at one decimal, and per-symbol
failures (`try/except` returning `None`) as `Option`.
-/

/-- `max(0, min(100, x))`, the clamp applied to every sub-score. -/
def clamp100 (x : ℚ) : ℚ := max 0 (min 100 x)

/-- Round-half-to-even to an integer, the behaviour of Python `round`. -/
def rhe (q : ℚ) : ℤ :=
  if q - ⌊q⌋ < 1/2 then ⌊q⌋
  else if 1/2 < q - ⌊q⌋ then ⌊q⌋ + 1
  else if ⌊q⌋ % 2 = 0 then ⌊q⌋ else ⌊q⌋ + 1

/-- Python `round(x, 1)`: round half-to-even at one decimal place. -/
def round1 (q : ℚ) : ℚ := (rhe (10 * q) : ℚ) / 10

theorem rhe_ge_floor (q : ℚ) : ⌊q⌋ ≤ rhe q := by
  unfold rhe
  split_ifs <;> omega

theorem rhe_le_ceil (q : ℚ) : rhe q ≤ ⌈q⌉ := by
  unfold rhe
  have hfc : ⌊q⌋ ≤ ⌈q⌉ := Int.floor_le_ceil q
  have hkey : 1/2 ≤ q - ⌊q⌋ → ⌊q⌋ + 1 ≤ ⌈q⌉ := by
    intro hf
    have : (⌊q⌋ : ℚ) < q := by linarith
    exact Int.lt_ceil.mpr this
  split_ifs with h1 h2 h3
  · exact hfc
  · exact hkey (by linarith)
  · exact hfc
  · exact hkey (le_of_not_lt h1)

theorem round1_bounds {x : ℚ} (h0 : 0 ≤ x) (h1 : x ≤ 100) :
    0 ≤ round1 x ∧ round1 x ≤ 100 := by
  unfold round1
  constructor
  · have hfl : (0 : ℤ) ≤ ⌊(10 : ℚ) * x⌋ := by
      apply Int.floor_nonneg.mpr
      nlinarith
    have := rhe_ge_floor (10 * x)
    have h10 : (0 : ℤ) ≤ rhe (10 * x) := le_trans hfl this
    have : (0 : ℚ) ≤ (rhe (10 * x) : ℚ) := by exact_mod_cast h10
    linarith
  · have hcl : ⌈(10 : ℚ) * x⌉ ≤ 1000 := by
      apply Int.ceil_le.mpr
      push_cast
      nlinarith
    have := rhe_le_ceil (10 * x)
    have h10 : rhe (10 * x) ≤ 1000 := le_trans this hcl
    have : (rhe (10 * x) : ℚ) ≤ 1000 := by exact_mod_cast h10
    linarith

theorem clamp100_bounds (x : ℚ) : 0 ≤ clamp100 x ∧ clamp100 x ≤ 100 := by
  unfold clamp100
  constructor
  · exact le_max_left 0 _
  · exact max_le (by norm_num) (min_le_left 100 x)

/-- `clamp100` is the identity on values already in `[0, 100]`. -/
theorem clamp100_eq_self {x : ℚ} (h0 : 0 ≤ x) (h1 : x ≤ 100) : clamp100 x = x := by
  unfold clamp100
  rw [min_eq_right h1, max_eq_right h0]

/-!
## Indicator library

`_calculate_rsi` (src/UNIFICADO/unificado2.py, 474-493) and `_calc_rsi`
(src/GLOBAL/globalscanner.py, 140-151) share the same body; one embedding
covers both.
-/

/-- `np.diff`: consecutive differences of a price list. -/
def diffs : List ℚ → List ℚ
  | x :: y :: t => (y - x) :: diffs (y :: t)
  | _ => []

/-- Python `l[-n:]`: the trailing `n` elements (the whole list when `n = 0`,
as for Python's `l[-0:]`). -/
def pySliceLast (n : ℕ) (l : List ℚ) : List ℚ :=
  if n = 0 then l else l.drop (l.length - n)

/-- `np.mean` (with Lean's `0`-valued division standing in for the NaN of an
empty mean, a case the guarded callers never reach). -/
def meanQ (l : List ℚ) : ℚ := l.sum / l.length

/-- `_calculate_rsi(prices, period)` / `_calc_rsi(prices, period)`:
Wilder-style RSI with a neutral-50 guard for short series and a 100 return
when the trailing average loss is zero. -/
def rsiCalc (prices : List ℚ) (period : ℕ) : ℚ :=
  if prices.length < period + 1 then 50
  else
    let deltas := diffs prices
    let gains := deltas.map (fun d => if 0 < d then d else 0)
    let losses := deltas.map (fun d => if d < 0 then -d else 0)
    let avgGain := meanQ (pySliceLast period gains)
    let avgLoss := meanQ (pySliceLast period losses)
    if avgLoss = 0 then 100
    else 100 - 100 / (1 + avgGain / avgLoss)

/-- C6: for every price series with fewer than `period + 1` points, the RSI
function returns the neutral value 50 (and, being a total function of its
inputs, never fails or raises). -/
theorem rsi_short_series_neutral (prices : List ℚ) (period : ℕ)
    (h : prices.length < period + 1) : rsiCalc prices period = 50 := by
  unfold rsiCalc
  rw [if_pos h]

/-- Witness for C6 at the concrete three-point series `[1, 2, 3]`. -/
theorem rsi_short_series_neutral_witness : rsiCalc [1, 2, 3] 14 = 50 :=
  rsi_short_series_neutral [1, 2, 3] 14 (by decide)

theorem pySliceLast_map (n : ℕ) (f : ℚ → ℚ) (l : List ℚ) :
    pySliceLast n (l.map f) = (pySliceLast n l).map f := by
  unfold pySliceLast
  split_ifs with h
  · rfl
  · rw [List.length_map, List.map_drop]

/-- C9: for every price series of at least `period + 1` points whose trailing
`period` consecutive differences are all nonnegative (no negative price
change), the RSI function returns exactly 100. -/
theorem rsi_no_losses_is_100 (prices : List ℚ) (period : ℕ)
    (hl : period + 1 ≤ prices.length)
    (hnn : ∀ d ∈ pySliceLast period (diffs prices), 0 ≤ d) :
    rsiCalc prices period = 100 := by
  unfold rsiCalc
  rw [if_neg (by omega)]
  have hzero :
      meanQ (pySliceLast period
        ((diffs prices).map (fun d => if d < 0 then -d else 0))) = 0 := by
    rw [pySliceLast_map]
    unfold meanQ
    have hsum : ((pySliceLast period (diffs prices)).map
        (fun d => if d < 0 then -d else 0)).sum = 0 := by
      apply List.sum_eq_zero
      intro x hx
      rcases List.mem_map.mp hx with ⟨d, hd, hdx⟩
      have : ¬ d < 0 := not_lt.mpr (hnn d hd)
      rw [← hdx, if_neg this]
    rw [hsum, zero_div]
  simp only [hzero]
  norm_num

/-- Witness for C9 at the strictly increasing 15-point series `1..15`. -/
theorem rsi_no_losses_is_100_witness :
    rsiCalc [1, 2, 3, 4, 5, 6, 7, 8, 9, 10, 11, 12, 13, 14, 15] 14 = 100 :=
  rsi_no_losses_is_100 [1, 2, 3, 4, 5, 6, 7, 8, 9, 10, 11, 12, 13, 14, 15] 14
    (by decide) (by norm_num [pySliceLast, diffs])

/-!
## MACD

`pandas.Series.ewm(span=s).mean()` with its default `adjust=True` computes
`out_t = s_t / c_t` with `s_t = x_t + w * s_(t-1)`, `c_t = 1 + w * c_(t-1)`
and `w = 1 - 2/(s+1) = (s-1)/(s+1)`.
-/

/-- One pass of the adjusted exponentially weighted mean. -/
def ewmAux (w : ℚ) : List ℚ → ℚ → ℚ → List ℚ
  | [], _, _ => []
  | x :: xs, s, c => ((x + w * s) / (1 + w * c)) :: ewmAux w xs (x + w * s) (1 + w * c)

/-- `series.ewm(span=sp).mean()` for a whole list. -/
def ewmMean (sp : ℕ) (xs : List ℚ) : List ℚ :=
  ewmAux (((sp : ℚ) - 1) / ((sp : ℚ) + 1)) xs 0 0

/-- `_calculate_macd` (src/UNIFICADO/unificado2.py, 495-513): guards only on
`len(prices) < slow`, then returns the last MACD line, signal and histogram
values. -/
def macdU2 (prices : List ℚ) (fast slow sig : ℕ) : ℚ × ℚ × ℚ :=
  if prices.length < slow then (0, 0, 0)
  else
    let exp1 := ewmMean fast prices
    let exp2 := ewmMean slow prices
    let line := List.zipWith (fun a b => a - b) exp1 exp2
    let macdSig := ewmMean sig line
    let hist := List.zipWith (fun a b => a - b) line macdSig
    (line.getLastD 0, macdSig.getLastD 0, hist.getLastD 0)

/-- `TechnicalIndicators.calculate_macd` (src/config.py, 401-425): guards on
`len(prices) < slow + signal`. -/
def macdCfg (prices : List ℚ) (fast slow sig : ℕ) : ℚ × ℚ × ℚ :=
  if prices.length < slow + sig then (0, 0, 0)
  else
    let emaFast := ewmMean fast prices
    let emaSlow := ewmMean slow prices
    let line := List.zipWith (fun a b => a - b) emaFast emaSlow
    let sigLine := ewmMean sig line
    let hist := List.zipWith (fun a b => a - b) line sigLine
    (line.getLastD 0, sigLine.getLastD 0, hist.getLastD 0)

/-- A 26-point price series (25 zeros, then 1): long enough for
`unificado2`'s `len < slow` guard to pass, yet shorter than
`slow + signal = 35`. -/
def macdShortSeries : List ℚ :=
  [0, 0, 0, 0, 0, 0, 0, 0, 0, 0, 0, 0, 0, 0, 0, 0, 0, 0, 0, 0, 0, 0, 0, 0, 0, 1]

set_option maxHeartbeats 2000000 in
/-- C7 (counterexample): `unificado2`'s `_calculate_macd` on a series of 26
points — fewer than `slow + signal = 35` — returns a nonzero triple, because
its guard checks `len < slow` only. -/
theorem macd_u2_short_nonzero_counterexample :
    macdShortSeries.length < 26 + 9 ∧
      macdU2 macdShortSeries 12 26 9 ≠ ((0 : ℚ), (0 : ℚ), (0 : ℚ)) := by
  refine ⟨by decide, fun h => ?_⟩
  have h1 := congrArg Prod.fst h
  norm_num [macdU2, macdShortSeries, ewmMean, ewmAux] at h1

/-- C7 (amended): `config.py`'s `calculate_macd` returns `(0, 0, 0)` whenever
the series has fewer than `slow + signal` points, while `unificado2`'s
`_calculate_macd` does so whenever it has fewer than `slow` points. -/
theorem macd_insufficient_data_zero (prices : List ℚ) (fast slow sig : ℕ) :
    (prices.length < slow + sig → macdCfg prices fast slow sig = (0, 0, 0)) ∧
      (prices.length < slow → macdU2 prices fast slow sig = (0, 0, 0)) := by
  constructor
  · intro h
    unfold macdCfg
    rw [if_pos h]
  · intro h
    unfold macdU2
    rw [if_pos h]

/-- Witness for C7 at the one-point series `[1]` with the default
`fast = 12`, `slow = 26`, `signal = 9`. -/
theorem macd_insufficient_data_zero_witness :
    macdCfg [1] 12 26 9 = (0, 0, 0) ∧ macdU2 [1] 12 26 9 = (0, 0, 0) :=
  ⟨(macd_insufficient_data_zero [1] 12 26 9).1 (by decide),
   (macd_insufficient_data_zero [1] 12 26 9).2 (by decide)⟩

/-!
## AdvancedAnalyzer scoring (src/UNIFICADO/unificado2.py, 580-813)

The input dictionary of `calculate_ai_scores` is embedded as a record of
the fields the six sub-score functions read.  `returns` keys are looked up
with `.get(period, 0)`, hence `Option` fields read with a `0` default.
-/

structure TechnicalData where
  rsi : ℚ
  ma20 : ℚ
  ma50 : ℚ
  ma200 : ℚ
  macd_line : ℚ
  macd_sig : ℚ
deriving DecidableEq, Repr

structure FundamentalsData where
  pe : ℚ
  pb : ℚ
  roe : ℚ
  roa : ℚ
  debt_to_equity : ℚ
  profit_margin : ℚ
  revenue_growth : ℚ
  dividend_yield : ℚ
deriving DecidableEq, Repr

structure RiskMetricsData where
  volatility : ℚ
  current_drawdown : ℚ
deriving DecidableEq, Repr

structure ReturnsData where
  r1w : Option ℚ
  r1m : Option ℚ
  r3m : Option ℚ
  r6m : Option ℚ
  r1y : Option ℚ
deriving DecidableEq, Repr

structure StockData where
  current_price : ℚ
  technical : TechnicalData
  fundamentals : FundamentalsData
  risk_metrics : RiskMetricsData
  returns : ReturnsData
deriving DecidableEq, Repr

structure AIScores where
  technical : ℚ
  fundamental : ℚ
  momentum : ℚ
  value : ℚ
  quality : ℚ
  risk : ℚ
  final : ℚ
deriving DecidableEq, Repr

/-- `_calculate_technical_score` (unificado2.py, 623-654). -/
def technicalScore (d : StockData) : ℚ :=
  clamp100 (50
    + (if 30 ≤ d.technical.rsi ∧ d.technical.rsi ≤ 70 then 15
       else if d.technical.rsi < 30 then 25
       else if 70 < d.technical.rsi then -10 else 0)
    + (if d.current_price > d.technical.ma20 then 8 else 0)
    + (if d.current_price > d.technical.ma50 then 12 else 0)
    + (if d.current_price > d.technical.ma200 then 15 else 0)
    + (if d.technical.macd_line > d.technical.macd_sig then 10 else 0)
    + (if 30 < |d.risk_metrics.current_drawdown| then 20
       else if 20 < |d.risk_metrics.current_drawdown| then 15
       else if 10 < |d.risk_metrics.current_drawdown| then 10 else 0))

/-- `_calculate_fundamental_score` (unificado2.py, 656-702). -/
def fundamentalScore (d : StockData) : ℚ :=
  clamp100 (50
    + (if 0 < d.fundamentals.pe ∧ d.fundamentals.pe < 8 then 30
       else if 8 ≤ d.fundamentals.pe ∧ d.fundamentals.pe < 15 then 20
       else if 15 ≤ d.fundamentals.pe ∧ d.fundamentals.pe < 25 then 10
       else if 40 < d.fundamentals.pe then -15 else 0)
    + (if 30/100 < d.fundamentals.roe then 25
       else if 20/100 < d.fundamentals.roe then 20
       else if 15/100 < d.fundamentals.roe then 15
       else if 10/100 < d.fundamentals.roe then 10
       else if d.fundamentals.roe < 0 then -25 else 0)
    + (if d.fundamentals.debt_to_equity < 2/10 then 20
       else if d.fundamentals.debt_to_equity < 4/10 then 15
       else if d.fundamentals.debt_to_equity < 1 then 10
       else if 3 < d.fundamentals.debt_to_equity then -25 else 0)
    + (if 20/100 < d.fundamentals.revenue_growth then 20
       else if 10/100 < d.fundamentals.revenue_growth then 15
       else if 5/100 < d.fundamentals.revenue_growth then 10
       else if d.fundamentals.revenue_growth < -(10/100) then -20 else 0))

/-- One term of the momentum loop of `_calculate_momentum_score`
(unificado2.py, 716-734) at return `ret` and weight `w`. -/
def momentumContribU2 (ret w : ℚ) : ℚ :=
  if 20 < ret then 20 * w
  else if 10 < ret then 15 * w
  else if 5 < ret then 10 * w
  else if ret < -15 then -15 * w else 0

/-- The unclamped momentum sum of unificado2 (base 50, weights
`{1w: 0.1, 1m: 0.2, 3m: 0.3, 6m: 0.25, 1y: 0.15}`). -/
def momentumRawU2 (r : ReturnsData) : ℚ :=
  50 + momentumContribU2 (r.r1w.getD 0) (1/10)
     + momentumContribU2 (r.r1m.getD 0) (2/10)
     + momentumContribU2 (r.r3m.getD 0) (3/10)
     + momentumContribU2 (r.r6m.getD 0) (25/100)
     + momentumContribU2 (r.r1y.getD 0) (15/100)

/-- `_calculate_momentum_score` (unificado2.py, 716-734). -/
def momentumScoreU2 (r : ReturnsData) : ℚ := clamp100 (momentumRawU2 r)

/-- One term of the momentum loop of `_calculate_momentum_score` in
unificado.py (969-992), which has two extra positive and one extra negative
band. -/
def momentumContribU1 (ret w : ℚ) : ℚ :=
  if 20 < ret then 20 * w
  else if 15 < ret then 15 * w
  else if 10 < ret then 10 * w
  else if 5 < ret then 5 * w
  else if ret < -15 then -15 * w
  else if ret < -10 then -10 * w else 0

/-- The unclamped momentum sum of unificado.py (same base and weights). -/
def momentumRawU1 (r : ReturnsData) : ℚ :=
  50 + momentumContribU1 (r.r1w.getD 0) (1/10)
     + momentumContribU1 (r.r1m.getD 0) (2/10)
     + momentumContribU1 (r.r3m.getD 0) (3/10)
     + momentumContribU1 (r.r6m.getD 0) (25/100)
     + momentumContribU1 (r.r1y.getD 0) (15/100)

/-- `_calculate_momentum_score` (unificado.py, 969-992). -/
def momentumScoreU1 (r : ReturnsData) : ℚ := clamp100 (momentumRawU1 r)

/-- `_calculate_value_score` (unificado2.py, 736-756). -/
def valueScore (d : StockData) : ℚ :=
  clamp100 (50
    + (if 0 < d.fundamentals.pb ∧ d.fundamentals.pb < 1 then 25
       else if 1 ≤ d.fundamentals.pb ∧ d.fundamentals.pb < 2 then 15
       else if 5 < d.fundamentals.pb then -15 else 0)
    + (if 5/100 < d.fundamentals.dividend_yield then 15
       else if 3/100 < d.fundamentals.dividend_yield then 10 else 0))

/-- `_calculate_quality_score` (unificado2.py, 758-784). -/
def qualityScore (d : StockData) : ℚ :=
  clamp100 (50
    + (if 15/100 < d.fundamentals.roa then 25
       else if 10/100 < d.fundamentals.roa then 20
       else if 5/100 < d.fundamentals.roa then 10
       else if d.fundamentals.roa < 0 then -20 else 0)
    + (if 20/100 < d.fundamentals.profit_margin then 20
       else if 10/100 < d.fundamentals.profit_margin then 10
       else if d.fundamentals.profit_margin < 0 then -15 else 0))

/-- The accumulated risk points of `_calculate_risk_score`
(unificado2.py, 786-813), before the `min(100, ...)`. -/
def riskRaw (d : StockData) : ℚ :=
  (if 80 < d.risk_metrics.volatility then 40
   else if 60 < d.risk_metrics.volatility then 30
   else if 40 < d.risk_metrics.volatility then 20
   else if 25 < d.risk_metrics.volatility then 10 else 0)
  + (if 5 < d.fundamentals.debt_to_equity then 30
     else if 3 < d.fundamentals.debt_to_equity then 20
     else if 1 < d.fundamentals.debt_to_equity then 10 else 0)
  + (if d.fundamentals.roe < 0 then 25 else 0)

/-- `_calculate_risk_score` (unificado2.py, 786-813). -/
def riskScore (d : StockData) : ℚ := min 100 (riskRaw d)

/-- The fixed weight table of `calculate_ai_scores` applied to the six
sub-scores: `technical*0.20 + fundamental*0.25 + momentum*0.15 + value*0.20
+ quality*0.15 - risk*0.05`. -/
def combineFinal (t f m v q r : ℚ) : ℚ :=
  t * (20/100) + f * (25/100) + m * (15/100) + v * (20/100) + q * (15/100)
    - r * (5/100)

/-- `calculate_ai_scores` (unificado2.py, 586-622): the six sub-scores and
the clamped weighted final score, each reported through Python
`round(x, 1)`. -/
def calculate_ai_scores (d : StockData) : AIScores :=
  { technical := round1 (technicalScore d)
    fundamental := round1 (fundamentalScore d)
    momentum := round1 (momentumScoreU2 d.returns)
    value := round1 (valueScore d)
    quality := round1 (qualityScore d)
    risk := round1 (riskScore d)
    final := round1 (clamp100 (combineFinal (technicalScore d)
      (fundamentalScore d) (momentumScoreU2 d.returns) (valueScore d)
      (qualityScore d) (riskScore d))) }

theorem riskRaw_nonneg (d : StockData) : 0 ≤ riskRaw d := by
  unfold riskRaw
  split_ifs <;> norm_num

theorem riskScore_bounds (d : StockData) : 0 ≤ riskScore d ∧ riskScore d ≤ 100 := by
  unfold riskScore
  exact ⟨le_min (by norm_num) (riskRaw_nonneg d), min_le_left 100 _⟩

/-- C1: every reported sub-score of `calculate_ai_scores` lies in `[0, 100]`,
and so does the reported final score, for every input record. -/
theorem ai_scores_bounded (d : StockData) :
    (0 ≤ (calculate_ai_scores d).technical ∧ (calculate_ai_scores d).technical ≤ 100) ∧
    (0 ≤ (calculate_ai_scores d).fundamental ∧ (calculate_ai_scores d).fundamental ≤ 100) ∧
    (0 ≤ (calculate_ai_scores d).momentum ∧ (calculate_ai_scores d).momentum ≤ 100) ∧
    (0 ≤ (calculate_ai_scores d).value ∧ (calculate_ai_scores d).value ≤ 100) ∧
    (0 ≤ (calculate_ai_scores d).quality ∧ (calculate_ai_scores d).quality ≤ 100) ∧
    (0 ≤ (calculate_ai_scores d).risk ∧ (calculate_ai_scores d).risk ≤ 100) ∧
    (0 ≤ (calculate_ai_scores d).final ∧ (calculate_ai_scores d).final ≤ 100) := by
  have hb : ∀ x : ℚ, 0 ≤ round1 (clamp100 x) ∧ round1 (clamp100 x) ≤ 100 := by
    intro x
    exact round1_bounds (clamp100_bounds x).1 (clamp100_bounds x).2
  have hr : 0 ≤ round1 (riskScore d) ∧ round1 (riskScore d) ≤ 100 :=
    round1_bounds (riskScore_bounds d).1 (riskScore_bounds d).2
  unfold calculate_ai_scores
  exact ⟨hb _, hb _, hb _, hb _, hb _, hr, hb _⟩

/-- C2 (amended): the reported final score is the fixed weighted sum of the
six (unrounded) sub-scores — weights 0.20/0.25/0.15/0.20/0.15 and risk
penalty 0.05 — clamped to `[0, 100]` and then rounded to one decimal; it
depends on the input only through the six sub-score functions. -/
theorem final_is_rounded_weighted_sum (d : StockData) :
    (calculate_ai_scores d).final =
      round1 (clamp100 (combineFinal (technicalScore d) (fundamentalScore d)
        (momentumScoreU2 d.returns) (valueScore d) (qualityScore d)
        (riskScore d))) := rfl

/-- A neutral record except for a 6% six-month return, on which the final
score is `55.9` while the claimed plain clamped weighted sum is `55.875`. -/
def sampleData : StockData :=
  { current_price := 10
    technical :=
      { rsi := 50, ma20 := 100, ma50 := 100, ma200 := 100
        macd_line := 0, macd_sig := 0 }
    fundamentals :=
      { pe := 0, pb := 0, roe := 0, roa := 0, debt_to_equity := 0
        profit_margin := 0, revenue_growth := 0, dividend_yield := 0 }
    risk_metrics := { volatility := 0, current_drawdown := 0 }
    returns := { r1w := none, r1m := none, r3m := none, r6m := some 6, r1y := none } }

/-- C2 (counterexample): on `sampleData` the reported final score (`55.9`)
differs from the weighted sum of the reported sub-scores clamped to
`[0, 100]` (`55.875`): the code rounds the clamped sum to one decimal. -/
theorem final_not_plain_weighted_sum_counterexample :
    (calculate_ai_scores sampleData).final ≠
      clamp100 (combineFinal (calculate_ai_scores sampleData).technical
        (calculate_ai_scores sampleData).fundamental
        (calculate_ai_scores sampleData).momentum
        (calculate_ai_scores sampleData).value
        (calculate_ai_scores sampleData).quality
        (calculate_ai_scores sampleData).risk) := by
  norm_num [calculate_ai_scores, sampleData, technicalScore, fundamentalScore,
    momentumScoreU2, momentumRawU2, momentumContribU2, valueScore, qualityScore,
    riskScore, riskRaw, combineFinal, clamp100, round1, rhe]

theorem momentumContribU2_bounds (ret w : ℚ) (hw : 0 ≤ w) :
    -15 * w ≤ momentumContribU2 ret w ∧ momentumContribU2 ret w ≤ 20 * w := by
  unfold momentumContribU2
  split_ifs <;> constructor <;> nlinarith

theorem momentumContribU1_bounds (ret w : ℚ) (hw : 0 ≤ w) :
    -15 * w ≤ momentumContribU1 ret w ∧ momentumContribU1 ret w ≤ 20 * w := by
  unfold momentumContribU1
  split_ifs <;> constructor <;> nlinarith

/-- C10: for every returns record, both versions of the momentum sub-score
lie in `[35, 70]` — the per-horizon weights sum to 1 and each horizon adds
at most `20 x weight` and at least `-15 x weight` to the base of 50 — so the
outer clamp to `[0, 100]` is never active and the sub-score can reach
neither 0 nor 100. -/
theorem momentum_score_within_35_70 (r : ReturnsData) :
    (35 ≤ momentumScoreU2 r ∧ momentumScoreU2 r ≤ 70 ∧
      momentumScoreU2 r = momentumRawU2 r) ∧
    (35 ≤ momentumScoreU1 r ∧ momentumScoreU1 r ≤ 70 ∧
      momentumScoreU1 r = momentumRawU1 r) := by
  have h2 : 35 ≤ momentumRawU2 r ∧ momentumRawU2 r ≤ 70 := by
    have b1 := momentumContribU2_bounds (r.r1w.getD 0) (1/10) (by norm_num)
    have b2 := momentumContribU2_bounds (r.r1m.getD 0) (2/10) (by norm_num)
    have b3 := momentumContribU2_bounds (r.r3m.getD 0) (3/10) (by norm_num)
    have b4 := momentumContribU2_bounds (r.r6m.getD 0) (25/100) (by norm_num)
    have b5 := momentumContribU2_bounds (r.r1y.getD 0) (15/100) (by norm_num)
    unfold momentumRawU2
    constructor <;> [linarith [b1.1, b2.1, b3.1, b4.1, b5.1];
      linarith [b1.2, b2.2, b3.2, b4.2, b5.2]]
  have h1 : 35 ≤ momentumRawU1 r ∧ momentumRawU1 r ≤ 70 := by
    have b1 := momentumContribU1_bounds (r.r1w.getD 0) (1/10) (by norm_num)
    have b2 := momentumContribU1_bounds (r.r1m.getD 0) (2/10) (by norm_num)
    have b3 := momentumContribU1_bounds (r.r3m.getD 0) (3/10) (by norm_num)
    have b4 := momentumContribU1_bounds (r.r6m.getD 0) (25/100) (by norm_num)
    have b5 := momentumContribU1_bounds (r.r1y.getD 0) (15/100) (by norm_num)
    unfold momentumRawU1
    constructor <;> [linarith [b1.1, b2.1, b3.1, b4.1, b5.1];
      linarith [b1.2, b2.2, b3.2, b4.2, b5.2]]
  have e2 : momentumScoreU2 r = momentumRawU2 r :=
    clamp100_eq_self (by linarith [h2.1]) (by linarith [h2.2])
  have e1 : momentumScoreU1 r = momentumRawU1 r :=
    clamp100_eq_self (by linarith [h1.1]) (by linarith [h1.2])
  exact ⟨⟨e2 ▸ h2.1, e2 ▸ h2.2, e2⟩, ⟨e1 ▸ h1.1, e1 ▸ h1.2, e1⟩⟩

/-!
## Recommendation (src/UNIFICADO/unificado.py, 1309-1368 and
src/UNIFICADO/unificado2.py, 1049-1075)
-/

structure Recommendation where
  action : String
  confidence : String
  score : ℚ
  horizon : String
  riskLevel : String
deriving DecidableEq, Repr

/-- `generate_recommendation(ai_analysis, data)` (unificado.py, 1309-1368):
thresholds 85/75/65/55/40 applied to `final_score - risk_score * 0.15`. -/
def generate_recommendation (finalScore riskSc vol : ℚ) : Recommendation :=
  { action :=
      if 85 ≤ finalScore - riskSc * (15/100) then "COMPRA FORTE"
      else if 75 ≤ finalScore - riskSc * (15/100) then "COMPRAR"
      else if 65 ≤ finalScore - riskSc * (15/100) then "COMPRA MODERADA"
      else if 55 ≤ finalScore - riskSc * (15/100) then "AGUARDAR MELHOR ENTRADA"
      else if 40 ≤ finalScore - riskSc * (15/100) then "EVITAR"
      else "VENDER/EVITAR"
    confidence :=
      if 85 ≤ finalScore - riskSc * (15/100) then "Muito Alta"
      else if 75 ≤ finalScore - riskSc * (15/100) then "Alta"
      else if 65 ≤ finalScore - riskSc * (15/100) then "Boa"
      else if 55 ≤ finalScore - riskSc * (15/100) then "Moderada"
      else if 40 ≤ finalScore - riskSc * (15/100) then "Baixa"
      else "Alta"
    score := round1 (finalScore - riskSc * (15/100))
    horizon :=
      if 60 < vol then "Longo prazo (2+ anos)"
      else if 35 < vol then "Medio prazo (6-18 meses)"
      else "Curto-medio prazo (3-12 meses)"
    riskLevel :=
      if 70 < riskSc then "Muito Alto"
      else if 50 < riskSc then "Alto"
      else if 30 < riskSc then "Medio"
      else "Baixo" }

/-- The inline recommendation ladder of `main` (unificado2.py, 1049-1075):
thresholds 80/70/60/50 applied directly to the final score, bottom label
"EVITAR", no risk adjustment and no sell tier. -/
def u2RecAction (finalScore : ℚ) : String :=
  if 80 ≤ finalScore then "COMPRA FORTE"
  else if 70 ≤ finalScore then "COMPRAR"
  else if 60 ≤ finalScore then "COMPRA MODERADA"
  else if 50 ≤ finalScore then "AGUARDAR"
  else "EVITAR"

/-- The ladder of the amended claim for unificado.py, stated from the
amended spec wording: ≥85 strong buy, ≥75 buy, ≥65 moderate buy, ≥55
hold/wait, ≥40 avoid, else sell/avoid, on the risk-adjusted score. -/
def ladderU1Spec (ra : ℚ) : String :=
  if 85 ≤ ra then "COMPRA FORTE"
  else if 75 ≤ ra then "COMPRAR"
  else if 65 ≤ ra then "COMPRA MODERADA"
  else if 55 ≤ ra then "AGUARDAR MELHOR ENTRADA"
  else if 40 ≤ ra then "EVITAR"
  else "VENDER/EVITAR"

/-- The ladder of the amended claim for unificado2.py, stated from the
amended spec wording: ≥80 strong buy, ≥70 buy, ≥60 moderate buy, ≥50 wait,
else avoid, on the unadjusted final score. -/
def ladderU2Spec (s : ℚ) : String :=
  if 80 ≤ s then "COMPRA FORTE"
  else if 70 ≤ s then "COMPRAR"
  else if 60 ≤ s then "COMPRA MODERADA"
  else if 50 ≤ s then "AGUARDAR"
  else "EVITAR"

/-- C3 (counterexample): with zero risk, a final score of exactly 80 yields
"COMPRAR" (buy), not "COMPRA FORTE" (strong buy), from unificado.py's
`generate_recommendation` — its strong-buy threshold is 85, not 80 — and a
final score of 39.9 yields "EVITAR" (avoid), not a sell label, from
unificado2.py's inline ladder, which has no >=35 tier at all. -/
theorem recommendation_ladder_counterexample :
    (generate_recommendation 80 0 0).action ≠ "COMPRA FORTE" ∧
      (generate_recommendation 80 0 0).action = "COMPRAR" ∧
      u2RecAction (399/10) = "EVITAR" := by
  have hb : (generate_recommendation 80 0 0).action = "COMPRAR" := by
    norm_num [generate_recommendation]
  refine ⟨?_, hb, ?_⟩
  · rw [hb]
    decide
  · norm_num [u2RecAction]

/-- C3 (amended): unificado.py's recommendation label follows the threshold
ladder ≥85 strong buy / ≥75 buy / ≥65 moderate buy / ≥55 wait / ≥40 avoid /
else sell-avoid on the risk-adjusted score `final - risk * 0.15`, while
unificado2.py's label follows the ladder ≥80 / ≥70 / ≥60 / ≥50 / else avoid
on the unadjusted final score. -/
theorem recommendation_ladder_amended (f r v : ℚ) :
    (generate_recommendation f r v).action = ladderU1Spec (f - r * (15/100)) ∧
      u2RecAction f = ladderU2Spec f :=
  ⟨rfl, rfl⟩

/-!
## Scan result filtering

`OpportunityScanner._apply_filters` (src/UNIFICADO/unificado.py, 1546-1574)
and the inline filter of `main` (src/GLOBAL/globalscanner.py, 324-329).
-/

/-- The fields of a scanner result row that the filters and the final sort
read. -/
structure ScanRow where
  symbol : String
  price : ℚ
  score : ℚ
  drawdown : ℚ
  pe : ℚ
  market_cap : ℚ
  volatility : ℚ
deriving DecidableEq, Repr

/-- The filter dictionary of `_apply_filters`; a `none` field is an absent
key, read through `filters.get(key, default)`. -/
structure FilterSpec where
  min_score : Option ℚ
  min_drawdown : Option ℚ
  max_pe : Option ℚ
  max_volatility : Option ℚ
  min_market_cap : Option ℚ
deriving DecidableEq, Repr

/-- One result passes `_apply_filters` iff none of its five `continue`
branches fires (defaults 0 / 0 / 999 / 999 / 0). -/
def passesFilters (fl : FilterSpec) (r : ScanRow) : Bool :=
  ¬ (r.score < fl.min_score.getD 0) ∧
  ¬ (|r.drawdown| < fl.min_drawdown.getD 0) ∧
  ¬ (fl.max_pe.getD 999 < r.pe ∧ 0 < r.pe) ∧
  ¬ (fl.max_volatility.getD 999 < r.volatility) ∧
  ¬ (r.market_cap < fl.min_market_cap.getD 0)

/-- `_apply_filters(results, filters)` (unificado.py, 1546-1574). -/
def applyFilters (results : List ScanRow) (fl : FilterSpec) : List ScanRow :=
  results.filter (passesFilters fl)

/-- The inline keep-condition of globalscanner.py's `main` (324-329):
`score >= min_score and abs(drawdown) >= min_drawdown and
(pe_ratio <= max_pe or pe_ratio == 0)`. -/
def gKeeps (minScore minDD maxPe : ℚ) (r : ScanRow) : Bool :=
  minScore ≤ r.score ∧ minDD ≤ |r.drawdown| ∧ (r.pe ≤ maxPe ∨ r.pe = 0)

/-- C8: a P/E of exactly 0 makes the maximum-P/E bound irrelevant (changing
`max_pe` never changes the outcome), and any row whose P/E exceeds both 0
and the `max_pe` bound is dropped — in both filter implementations. -/
theorem pe_zero_skips_max_pe_filter (fl : FilterSpec) (r : ScanRow)
    (minScore minDD maxPe : ℚ) :
    (r.pe = 0 → ∀ m₁ m₂ : Option ℚ,
      passesFilters { fl with max_pe := m₁ } r =
        passesFilters { fl with max_pe := m₂ } r) ∧
    (0 < r.pe → fl.max_pe.getD 999 < r.pe → passesFilters fl r = false) ∧
    (r.pe = 0 → ∀ m₁ m₂ : ℚ, gKeeps minScore minDD m₁ r = gKeeps minScore minDD m₂ r) ∧
    (0 < r.pe → maxPe < r.pe → gKeeps minScore minDD maxPe r = false) := by
  refine ⟨?_, ?_, ?_, ?_⟩
  · intro h0 m₁ m₂
    simp only [passesFilters, h0]
    norm_num
  · intro hpos hgt
    simp only [passesFilters]
    simp [hgt, hpos]
  · intro h0 m₁ m₂
    simp only [gKeeps, h0]
    norm_num
  · intro hpos hgt
    have h1 : ¬ r.pe ≤ maxPe := not_le.mpr hgt
    have h2 : r.pe ≠ 0 := ne_of_gt hpos
    simp [gKeeps, h1, h2]

/-- A sample row with unknown (zero) P/E. -/
def rowZeroPe : ScanRow := ⟨"AAA", 1, 10, 0, 0, 1, 1⟩

/-- A sample row with P/E 50. -/
def rowHighPe : ScanRow := ⟨"BBB", 1, 10, 0, 50, 1, 1⟩

/-- Filters bounding P/E by 1, 2 and 30 respectively. -/
def flPe1 : FilterSpec := ⟨none, none, some 1, none, none⟩

def flPe2 : FilterSpec := ⟨none, none, some 2, none, none⟩

def flPe30 : FilterSpec := ⟨none, none, some 30, none, none⟩

/-- Witness for C8: a zero-P/E row is judged identically under `max_pe = 1`
and `max_pe = 2`; a row with P/E 50 is dropped under `max_pe = 30` by both
filter implementations. -/
theorem pe_zero_skips_max_pe_filter_witness :
    (passesFilters flPe1 rowZeroPe = passesFilters flPe2 rowZeroPe) ∧
      (passesFilters flPe30 rowHighPe = false) ∧
      (gKeeps 0 0 30 rowHighPe = false) := by
  refine ⟨?_, ?_, ?_⟩
  · have h := (pe_zero_skips_max_pe_filter flPe1 rowZeroPe 0 0 30).1 rfl
      (some 1) (some 2)
    simpa [flPe1, flPe2] using h
  · exact (pe_zero_skips_max_pe_filter flPe30 rowHighPe 0 0 30).2.1
      (by norm_num [rowHighPe]) (by norm_num [rowHighPe, flPe30])
  · exact (pe_zero_skips_max_pe_filter flPe30 rowHighPe 0 0 30).2.2.2
      (by norm_num [rowHighPe]) (by norm_num [rowHighPe])

/-!
## Ranking (src/UNIFICADO/unificado.py, 1536-1538)

`sorted(filtered_results, key=lambda x: x["score"], reverse=True)` is a
stable descending sort on the score alone; it is embedded as a stable
insertion sort (stable sorts by a fixed key are extensionally unique).
-/

/-- Insert a row before the first element whose score is not `≥` its own:
the earlier-arriving row stays in front of equal scores. -/
def insertByScoreDesc (x : ScanRow) : List ScanRow → List ScanRow
  | [] => [x]
  | y :: ys => if y.score ≤ x.score then x :: y :: ys else y :: insertByScoreDesc x ys

/-- The stable descending sort by score of the scan ranking. -/
def sortByScoreDesc : List ScanRow → List ScanRow
  | [] => []
  | x :: xs => insertByScoreDesc x (sortByScoreDesc xs)

theorem insertByScoreDesc_perm (x : ScanRow) (l : List ScanRow) :
    (insertByScoreDesc x l).Perm (x :: l) := by
  induction l with
  | nil => exact List.Perm.refl _
  | cons y ys ih =>
    unfold insertByScoreDesc
    split_ifs
    · exact List.Perm.refl _
    · exact (ih.cons y).trans (List.Perm.swap x y ys)

theorem sortByScoreDesc_perm (l : List ScanRow) : (sortByScoreDesc l).Perm l := by
  induction l with
  | nil => exact List.Perm.refl _
  | cons x xs ih =>
    exact (insertByScoreDesc_perm x (sortByScoreDesc xs)).trans (ih.cons x)

theorem insertByScoreDesc_pairwise (x : ScanRow) (l : List ScanRow)
    (h : l.Pairwise (fun a b => b.score ≤ a.score)) :
    (insertByScoreDesc x l).Pairwise (fun a b => b.score ≤ a.score) := by
  induction l with
  | nil => simp [insertByScoreDesc]
  | cons y ys ih =>
    rcases List.pairwise_cons.mp h with ⟨hy, hys⟩
    unfold insertByScoreDesc
    split_ifs with hc
    · refine List.pairwise_cons.mpr ⟨?_, h⟩
      intro z hz
      rcases List.mem_cons.mp hz with hz | hz
      · exact hz ▸ hc
      · exact le_trans (hy z hz) hc
    · refine List.pairwise_cons.mpr ⟨?_, ih hys⟩
      intro z hz
      have hz2 : z ∈ x :: ys := (insertByScoreDesc_perm x ys).subset hz
      rcases List.mem_cons.mp hz2 with hz2 | hz2
      · exact hz2 ▸ le_of_lt (not_le.mp hc)
      · exact hy z hz2

theorem sortByScoreDesc_pairwise (l : List ScanRow) :
    (sortByScoreDesc l).Pairwise (fun a b => b.score ≤ a.score) := by
  induction l with
  | nil => simp [sortByScoreDesc]
  | cons x xs ih => exact insertByScoreDesc_pairwise x (sortByScoreDesc xs) ih

theorem sorted_strict_perm_eq :
    ∀ {l₁ l₂ : List ScanRow}, l₁.Perm l₂ →
      l₁.Pairwise (fun a b => b.score < a.score) →
      l₂.Pairwise (fun a b => b.score < a.score) → l₁ = l₂ := by
  intro l₁
  induction l₁ with
  | nil =>
    intro l₂ hp _ _
    exact (List.Perm.eq_nil hp.symm).symm
  | cons a t₁ ih =>
    intro l₂ hp h₁ h₂
    cases l₂ with
    | nil => exact absurd (List.Perm.eq_nil hp) (by simp)
    | cons b t₂ =>
      by_cases hab : a = b
      · subst hab
        rw [ih (hp.cons_inv) (List.pairwise_cons.mp h₁).2 (List.pairwise_cons.mp h₂).2]
      · exfalso
        have ha : a ∈ t₂ := by
          rcases List.mem_cons.mp (hp.subset (List.mem_cons_self a t₁)) with h | h
          · exact absurd h hab
          · exact h
        have hb : b ∈ t₁ := by
          rcases List.mem_cons.mp (hp.symm.subset (List.mem_cons_self b t₂)) with h | h
          · exact absurd h.symm hab
          · exact h
        have h1 : a.score < b.score := (List.pairwise_cons.mp h₂).1 a ha
        have h2 : b.score < a.score := (List.pairwise_cons.mp h₁).1 b hb
        exact lt_asymm h1 h2

/-- C4 (amended): when all scores in a batch are pairwise distinct, the
final ranking is identical for every completion-order permutation of the
results; with tied scores the sort is stable on score alone (no symbol
tie-break), so arrival order shows through. -/
theorem scan_ranking_order_independent (l₁ l₂ : List ScanRow)
    (hperm : l₁.Perm l₂)
    (hdist : l₁.Pairwise (fun a b => a.score ≠ b.score)) :
    sortByScoreDesc l₁ = sortByScoreDesc l₂ := by
  have hd₁ : (sortByScoreDesc l₁).Pairwise (fun a b => a.score ≠ b.score) :=
    ((sortByScoreDesc_perm l₁).pairwise_iff (fun {x y} h => Ne.symm h)).mpr hdist
  have hd₂ : (sortByScoreDesc l₂).Pairwise (fun a b => a.score ≠ b.score) :=
    ((sortByScoreDesc_perm l₂).pairwise_iff (fun {x y} h => Ne.symm h)).mpr
      ((hperm.pairwise_iff (fun {x y} h => Ne.symm h)).mp hdist)
  have hs₁ := (sortByScoreDesc_pairwise l₁).and hd₁
  have hs₂ := (sortByScoreDesc_pairwise l₂).and hd₂
  have hstrict₁ : (sortByScoreDesc l₁).Pairwise (fun a b => b.score < a.score) :=
    hs₁.imp (fun h => lt_of_le_of_ne h.1 (Ne.symm h.2))
  have hstrict₂ : (sortByScoreDesc l₂).Pairwise (fun a b => b.score < a.score) :=
    hs₂.imp (fun h => lt_of_le_of_ne h.1 (Ne.symm h.2))
  exact sorted_strict_perm_eq
    ((sortByScoreDesc_perm l₁).trans (hperm.trans (sortByScoreDesc_perm l₂).symm))
    hstrict₁ hstrict₂

/-- Distinct-score rows for the C4 witness. -/
def rowScoreA : ScanRow := ⟨"A", 1, 60, 0, 0, 0, 0⟩

def rowScoreB : ScanRow := ⟨"B", 1, 50, 0, 0, 0, 0⟩

/-- Witness for C4 on two rows with distinct scores arriving in either
order. -/
theorem scan_ranking_order_independent_witness :
    sortByScoreDesc [rowScoreB, rowScoreA] = sortByScoreDesc [rowScoreA, rowScoreB] :=
  scan_ranking_order_independent [rowScoreB, rowScoreA] [rowScoreA, rowScoreB]
    (List.Perm.swap rowScoreA rowScoreB [])
    (by norm_num [List.pairwise_cons, rowScoreA, rowScoreB])

/-- Equal-score rows for the C4 counterexample. -/
def rowTieA : ScanRow := ⟨"A", 1, 50, 0, 0, 0, 0⟩

def rowTieB : ScanRow := ⟨"B", 1, 50, 0, 0, 0, 0⟩

/-- C4 (counterexample): two equal-score results arriving in opposite
orders are ranked in their arrival orders — the two permutations produce
different outputs, and in the first the symbols are not in lexical order
("B" before "A"): the sort has no symbol tie-break. -/
theorem scan_ranking_tie_counterexample :
    [rowTieB, rowTieA].Perm [rowTieA, rowTieB] ∧
      sortByScoreDesc [rowTieB, rowTieA] ≠ sortByScoreDesc [rowTieA, rowTieB] ∧
      sortByScoreDesc [rowTieB, rowTieA] = [rowTieB, rowTieA] := by
  have he1 : sortByScoreDesc [rowTieB, rowTieA] = [rowTieB, rowTieA] := by
    norm_num [sortByScoreDesc, insertByScoreDesc, rowTieA, rowTieB]
  have he2 : sortByScoreDesc [rowTieA, rowTieB] = [rowTieA, rowTieB] := by
    norm_num [sortByScoreDesc, insertByScoreDesc, rowTieA, rowTieB]
  refine ⟨List.Perm.swap rowTieA rowTieB [], ?_, he1⟩
  rw [he1, he2]
  intro h
  have := List.head_eq_of_cons_eq h
  rw [rowTieA, rowTieB] at this
  simp at this

/-!
## Scan fan-in and partial-failure tolerance

`scan_parallel` (src/GLOBAL/globalscanner.py, 207-237) and
`OpportunityScanner.scan_opportunities`'s `analyze_batch`
(src/UNIFICADO/unificado.py, 1476-1538): every symbol's analysis either
yields a result row or fails (`try/except continue` / `None` return); a
batch keeps only its successes, and the orchestrator concatenates batch
results in completion order and adds `len(batch)` to its `completed`
progress counter per finished batch.
-/

/-- A worker batch: the per-symbol outcome is `none` on fetch error, empty
data or a swallowed per-symbol exception. -/
def analyzeBatch (outcomes : List (Option ScanRow)) : List ScanRow :=
  outcomes.filterMap id

/-- The orchestrator's accumulated results over all batches. -/
def scanCollect (batches : List (List (Option ScanRow))) : List ScanRow :=
  (batches.map analyzeBatch).flatten

/-- The number of symbols dispatched, `M`. -/
def totalSymbols (batches : List (List (Option ScanRow))) : ℕ :=
  (batches.map List.length).sum

/-- The number of per-symbol failures, `N`. -/
def failedCount (batches : List (List (Option ScanRow))) : ℕ :=
  (batches.map (fun b => b.countP (fun o => o.isNone))).sum

/-- The final value of the only counter the orchestrator reports: the
`completed` progress counter, incremented by `len(batch)` per batch. -/
def reportedCompleted (batches : List (List (Option ScanRow))) : ℕ :=
  (batches.map List.length).sum

theorem filterMap_id_length (l : List (Option ScanRow)) :
    (l.filterMap id).length + l.countP (fun o => o.isNone) = l.length := by
  induction l with
  | nil => rfl
  | cons o t ih =>
    cases o <;> simp [List.filterMap_cons, List.countP_cons] <;> omega

/-- C5 (amended): for every batch decomposition of per-symbol outcomes, the
orchestrator returns exactly the successful rows (in completion order) and
their number plus the number `N` of failures is the number `M` of symbols
— no single-symbol failure aborts or alters the rest, and the collection
function is total (never raises).  No failure count is reported, however:
the only reported counter is the attempted count. -/
theorem scan_partial_failure_tolerant (batches : List (List (Option ScanRow))) :
    scanCollect batches = batches.flatten.filterMap id ∧
      (scanCollect batches).length + failedCount batches = totalSymbols batches := by
  constructor
  · induction batches with
    | nil => rfl
    | cons b bs ih =>
      simp only [scanCollect, analyzeBatch, List.map_cons, List.flatten_cons,
        List.filterMap_append] at ih ⊢
      rw [ih]
  · induction batches with
    | nil => rfl
    | cons b bs ih =>
      have hb := filterMap_id_length b
      simp only [scanCollect, analyzeBatch, totalSymbols, failedCount,
        List.map_cons, List.flatten_cons, List.sum_cons,
        List.length_append] at ih ⊢
      omega

/-- A successful row for the C5 counterexample. -/
def rowOk : ScanRow := ⟨"OK", 1, 50, 0, 0, 0, 0⟩

/-- One batch of two symbols, one failing. -/
def failBatches : List (List (Option ScanRow)) := [[some rowOk, none]]

/-- C5 (counterexample): on a batch of `M = 2` symbols with `N = 1`
failure, the scan returns exactly the one successful row, but the only
count it reports is the attempted count 2 — it does not report the failure
count 1 anywhere (no `totalFailed` is computed). -/
theorem scan_no_failed_count_counterexample :
    scanCollect failBatches = [rowOk] ∧
      failedCount failBatches = 1 ∧
      reportedCompleted failBatches = 2 ∧
      reportedCompleted failBatches ≠ failedCount failBatches := by
  refine ⟨rfl, rfl, rfl, by decide⟩
